import Mathlib

/-!
Verification of the qpsolvers problem-validation and CVXOPT-adapter layer.

Shallow embedding conventions:
* matrices are row lists of rational entries (`Mat`); vectors are `Vec`;
* a NumPy / SciPy matrix argument is a `PyMat`, tagged `dense` (ndarray)
  or `sparse` (csc_matrix), mirroring the duck-typed acceptance in the code;
* absent arguments (`None` in Python) are `Option.none`;
* a Python function that may raise returns `Except String α`, the error
  carrying the exception message;
* the process-wide `cvxopt.solvers.options` dictionary is an explicit
  `CvxoptOptions` state threaded through the adapter.
-/

/-- Dense numeric matrix: list of rows of rational entries. -/
abbrev Mat : Type := List (List ℚ)

/-- Numeric vector. -/
abbrev Vec : Type := List ℚ

/-- Bound vector: one optional entry per variable; `none` models an
infinite (absent) bound component. -/
abbrev BVec : Type := List (Option ℚ)

/-- A caller-supplied matrix: NumPy dense array or SciPy CSC sparse matrix,
both carrying the same mathematical entries. -/
inductive PyMat : Type
  | dense (entries : Mat)
  | sparse (entries : Mat)
deriving DecidableEq, Repr

/-- The mathematical entries of a caller-supplied matrix. -/
def PyMat.entries : PyMat → Mat
  | .dense m => m
  | .sparse m => m

/-- A CVXOPT-format matrix: `cvxopt.matrix` (dense) or `cvxopt.spmatrix`. -/
inductive CvxMat : Type
  | matrix (entries : Mat)
  | spmatrix (entries : Mat)
deriving DecidableEq, Repr

/-- `to_cvxopt` from `qpsolvers/solvers/cvxopt_.py`: an ndarray becomes a
dense `cvxopt.matrix`; a csc matrix is converted through COO triplets into a
`cvxopt.spmatrix` with the same entries. -/
def to_cvxopt : PyMat → CvxMat
  | .dense m => .matrix m
  | .sparse m => .spmatrix m

/-- `to_cvxopt` applied to a one-dimensional ndarray (the `q`, `h`, `b` and
`initvals` arguments): `cvxopt.matrix` turns it into a column matrix. -/
def vec_to_cvxopt (v : Vec) : CvxMat :=
  .matrix (v.map fun x => [x])

/-- `check_problem_constraints` from
`qpsolvers/check_problem_constraints.py`: raise `ValueError` when exactly
one member of the pair (G, h) or of the pair (A, b) is present.  The four
tests run in source order; the first failing test raises. -/
def check_problem_constraints (G : Option PyMat) (h : Option Vec)
    (A : Option PyMat) (b : Option Vec) : Except String Unit :=
  if G.isNone && h.isSome then
    .error "incomplete inequality constraint (missing h)"
  else if G.isSome && h.isNone then
    .error "incomplete inequality constraint (missing G)"
  else if A.isNone && b.isSome then
    .error "incomplete equality constraint (missing b)"
  else if A.isSome && b.isNone then
    .error "incomplete equality constraint (missing A)"
  else
    .ok ()

/-- Whether a call raised (returned through the exception channel). -/
def raises {α : Type} (r : Except String α) : Bool :=
  match r with
  | .error _ => true
  | .ok _ => false

/-- C1: the validator raises exactly when one element of the pair (G, h) is
present and the other absent, or one element of the pair (A, b) is present
and the other absent; when both elements of each pair are present or both
absent it returns normally. -/
theorem validator_raises_iff_incomplete_pair
    (G : Option PyMat) (h : Option Vec) (A : Option PyMat) (b : Option Vec) :
    raises (check_problem_constraints G h A b) =
      ((G.isSome != h.isSome) || (A.isSome != b.isSome)) := by
  cases G <;> cases h <;> cases A <;> cases b <;>
    simp [check_problem_constraints, raises]

/-- C9: the validator's observable behaviour — raise/no-raise decision and
the exact message — depends only on the presence pattern of its four
arguments, never on numeric contents, shapes, or dense/sparse storage
format. -/
theorem validator_depends_only_on_presence
    (G G' : Option PyMat) (h h' : Option Vec)
    (A A' : Option PyMat) (b b' : Option Vec)
    (hG : G.isSome = G'.isSome) (hh : h.isSome = h'.isSome)
    (hA : A.isSome = A'.isSome) (hb : b.isSome = b'.isSome) :
    check_problem_constraints G h A b = check_problem_constraints G' h' A' b' := by
  cases G <;> cases G' <;> cases h <;> cases h' <;>
    cases A <;> cases A' <;> cases b <;> cases b' <;>
    simp_all [check_problem_constraints]

/-- Witness for C9: two calls with the same presence pattern but different
contents, shapes and storage formats behave identically. -/
theorem validator_depends_only_on_presence_witness :
    check_problem_constraints (some (.dense [[1, 2]])) (some [3]) none none =
      check_problem_constraints (some (.sparse [[4], [5]])) (some [6, 7]) none none :=
  validator_depends_only_on_presence
    (some (.dense [[1, 2]])) (some (.sparse [[4], [5]]))
    (some [3]) (some [6, 7]) none none none none
    rfl rfl rfl rfl

/-- The `i`-th standard basis row of length `n`. -/
def basisRow (n i : Nat) : Vec :=
  (List.range n).map fun j => if j = i then 1 else 0

/-- One inequality row per finite bound component, walking the bound vector
from variable index `i` upward: a finite component `v` at index `j`
contributes the row `sign * e_j` with right-hand side `sign * v`; an
infinite (`none`) component contributes nothing. -/
def boxRows (n : Nat) (sign : ℚ) : Nat → BVec → List (Vec × ℚ)
  | _, [] => []
  | i, none :: rest => boxRows n sign (i + 1) rest
  | i, some v :: rest =>
      ((basisRow n i).map fun x => sign * x, sign * v) :: boxRows n sign (i + 1) rest

/-- Modelled from the spec: `linear_from_box_inequalities` is imported from
`qpsolvers/solvers/conversions.py`, a file of this repository that is not
among the provided sources.  Per the spec (§4.2): each finite `lb i` appends
the row `-e i` with right-hand side `-lb i`; each finite `ub i` appends the
row `e i` with right-hand side `ub i`; infinite bounds append no row; the
result stacks the original G rows first, then lower-bound rows in variable
index order, then upper-bound rows in variable index order; when G and h are
absent and no finite bound exists the result is `(none, none)`. -/
def linear_from_box_inequalities (G : Option PyMat) (h : Option Vec)
    (lb ub : Option BVec) : Option PyMat × Option Vec :=
  let n := match lb, ub with
    | some l, _ => l.length
    | none, some u => u.length
    | none, none => 0
  let lpairs := match lb with
    | some l => boxRows n (-1) 0 l
    | none => []
  let upairs := match ub with
    | some u => boxRows n 1 0 u
    | none => []
  let pairs := lpairs ++ upairs
  match G, h with
  | some g, some hv =>
      (some (.dense (g.entries ++ pairs.map Prod.fst)), some (hv ++ pairs.map Prod.snd))
  | _, _ =>
      if pairs.isEmpty then (none, none)
      else (some (.dense (pairs.map Prod.fst)), some (pairs.map Prod.snd))

/-- The process-wide `cvxopt.solvers.options` dictionary, restricted to the
keys this adapter touches.  `show_progress` is always present once the
module is imported; the other keys are present only if some call has set
them. -/
structure CvxoptOptions : Type where
  show_progress : Bool
  maxiters : Option ℤ
  abstol : Option ℚ
  reltol : Option ℚ
  feastol : Option ℚ
  refinement : Option ℤ
deriving DecidableEq, Repr

/-- Global option state right after module import: line 32 of
`cvxopt_.py` runs `show_progress = False`; no other key has been set. -/
def options_init : CvxoptOptions :=
  { show_progress := false, maxiters := none, abstol := none,
    reltol := none, feastol := none, refinement := none }

/-- Python truthiness of an optional integer argument (`if maxiters:`):
truthy iff present and nonzero. -/
def truthyInt (x : Option ℤ) : Bool :=
  match x with
  | none => false
  | some n => n != 0

/-- Python truthiness of an optional float argument (`if abstol:`):
truthy iff present and nonzero. -/
def truthyRat (x : Option ℚ) : Bool :=
  match x with
  | none => false
  | some v => v != 0

/-- The option-table effect of one `cvxopt_solve_qp` call (lines 174-185):
`show_progress` is overwritten with `verbose`; each tuning option is written
only when the caller's value is truthy. -/
def cvxopt_update_options (st : CvxoptOptions) (verbose : Bool)
    (maxiters : Option ℤ) (abstol reltol feastol : Option ℚ)
    (refinement : Option ℤ) : CvxoptOptions :=
  let st1 := { st with show_progress := verbose }
  let st2 := if truthyInt maxiters then { st1 with maxiters := maxiters } else st1
  let st3 := if truthyRat abstol then { st2 with abstol := abstol } else st2
  let st4 := if truthyRat reltol then { st3 with reltol := reltol } else st3
  let st5 := if truthyRat feastol then { st4 with feastol := feastol } else st4
  if truthyInt refinement then { st5 with refinement := refinement } else st5

/-- The positional and keyword arguments handed to `cvxopt.solvers.qp`. -/
structure QpArgs : Type where
  P : CvxMat
  q : CvxMat
  G : Option CvxMat
  h : Option CvxMat
  A : Option CvxMat
  b : Option CvxMat
  solver : Option String
  initvals : Option CvxMat
deriving DecidableEq, Repr

/-- The solution dictionary returned by `cvxopt.solvers.qp`: a status
string and a primal point. -/
structure CvxoptSol : Type where
  status : String
  x : Vec
deriving DecidableEq, Repr

/-- The backend `cvxopt.solvers.qp`: reads the global option state, takes
the built arguments, and either returns a solution dictionary or raises. -/
abbrev QpBackend : Type := CvxoptOptions → QpArgs → Except String CvxoptSol

/-- Python substring containment (`pat in s` on strings). -/
def strContains (s pat : String) : Bool :=
  (List.range (s.length + 1)).any fun i => List.isPrefixOf pat.data (s.data.drop i)

/-- `numpy.reshape` of a flat vector to shape `(n,)`: raises unless the
element count already equals `n`. -/
def np_reshape (x : Vec) (n : Nat) : Except String Vec :=
  if x.length = n then .ok x else .error "cannot reshape array"

/-- Everything one `cvxopt_solve_qp` call leaves behind: the global option
state after the call, the arguments the backend was invoked with, and the
call's own return (through `Except`, since the call itself may raise). -/
structure SolveResult : Type where
  options_out : CvxoptOptions
  qp_args : QpArgs
  result : Except String (Option Vec)

/-- `cvxopt_solve_qp` from `qpsolvers/solvers/cvxopt_.py` (lines 171-201),
with the backend `qp` passed as a parameter and the global option dictionary
threaded explicitly:
box bounds are folded into (G, h) when present; the option table is
updated; the argument list is built, each constraint pair forwarded only
when both members are present; `qp` is invoked; a status not containing
"optimal" yields `None`, otherwise the point is reshaped to length
`len(q)`. -/
def cvxopt_solve_qp (qp : QpBackend) (st : CvxoptOptions)
    (P : PyMat) (q : Vec) (G : Option PyMat) (h : Option Vec)
    (A : Option PyMat) (b : Option Vec) (lb ub : Option BVec)
    (solver : Option String) (initvals : Option Vec) (verbose : Bool)
    (maxiters : Option ℤ) (abstol reltol feastol : Option ℚ)
    (refinement : Option ℤ) : SolveResult :=
  let GH := if lb.isSome || ub.isSome
    then linear_from_box_inequalities G h lb ub
    else (G, h)
  let Gc := GH.1
  let hc := GH.2
  let st1 := { st with show_progress := verbose }
  let st2 := if truthyInt maxiters then { st1 with maxiters := maxiters } else st1
  let st3 := if truthyRat abstol then { st2 with abstol := abstol } else st2
  let st4 := if truthyRat reltol then { st3 with reltol := reltol } else st3
  let st5 := if truthyRat feastol then { st4 with feastol := feastol } else st4
  let st6 := if truthyInt refinement then { st5 with refinement := refinement } else st5
  let args0 : QpArgs :=
    { P := to_cvxopt P, q := vec_to_cvxopt q,
      G := none, h := none, A := none, b := none,
      solver := solver, initvals := none }
  let args1 := match Gc, hc with
    | some g, some hv =>
        { args0 with G := some (to_cvxopt g), h := some (vec_to_cvxopt hv) }
    | _, _ => args0
  let args2 := match A, b with
    | some a, some bv =>
        { args1 with A := some (to_cvxopt a), b := some (vec_to_cvxopt bv) }
    | _, _ => args1
  let args3 := match initvals with
    | some iv => { args2 with initvals := some (vec_to_cvxopt iv) }
    | none => args2
  let res : Except String (Option Vec) :=
    match qp st6 args3 with
    | .error e => .error e
    | .ok sol =>
        if strContains sol.status "optimal" then
          match np_reshape sol.x q.length with
          | .ok v => .ok (some v)
          | .error e => .error e
        else .ok none
  ⟨st6, args3, res⟩

/-- Shared fact: the global option state a call leaves behind is exactly
the caller-applied update of the prior state, whatever the backend does. -/
theorem cvxopt_solve_qp_options_out (qp : QpBackend) (st : CvxoptOptions)
    (P : PyMat) (q : Vec) (G : Option PyMat) (h : Option Vec)
    (A : Option PyMat) (b : Option Vec) (lb ub : Option BVec)
    (solver : Option String) (initvals : Option Vec) (verbose : Bool)
    (maxiters : Option ℤ) (abstol reltol feastol : Option ℚ)
    (refinement : Option ℤ) :
    (cvxopt_solve_qp qp st P q G h A b lb ub solver initvals verbose
        maxiters abstol reltol feastol refinement).options_out =
      cvxopt_update_options st verbose maxiters abstol reltol feastol refinement :=
  rfl

/-- Shared fact: field-by-field description of the option-table update. -/
theorem cvxopt_update_options_fields (st : CvxoptOptions) (verbose : Bool)
    (maxiters : Option ℤ) (abstol reltol feastol : Option ℚ)
    (refinement : Option ℤ) :
    cvxopt_update_options st verbose maxiters abstol reltol feastol refinement =
      { show_progress := verbose,
        maxiters := if truthyInt maxiters then maxiters else st.maxiters,
        abstol := if truthyRat abstol then abstol else st.abstol,
        reltol := if truthyRat reltol then reltol else st.reltol,
        feastol := if truthyRat feastol then feastol else st.feastol,
        refinement := if truthyInt refinement then refinement else st.refinement } := by
  unfold cvxopt_update_options
  cases truthyInt maxiters <;> cases truthyRat abstol <;> cases truthyRat reltol <;>
    cases truthyRat feastol <;> cases truthyInt refinement <;> simp

/-- Counterexample for C4: one concrete call that sets `maxiters = 10`
leaves the global option table different from what it was before the call —
the prior state is not restored. -/
theorem options_not_restored_cex :
    (cvxopt_solve_qp (fun _ _ => .ok ⟨"optimal", [0]⟩) options_init
        (.dense [[1]]) [0] none none none none none none none none false
        (some 10) none none none none).options_out ≠ options_init := by
  decide

/-- C4 (amended): the adapter writes the caller's options into the shared
global option table before invoking the backend and performs no snapshot or
restore: for every call, whatever the backend does, the post-call global
state is the caller-applied update of the prior state, and any truthy
option set by the call persists after it returns. -/
theorem options_applied_without_restore (qp : QpBackend) (st : CvxoptOptions)
    (P : PyMat) (q : Vec) (G : Option PyMat) (h : Option Vec)
    (A : Option PyMat) (b : Option Vec) (lb ub : Option BVec)
    (solver : Option String) (initvals : Option Vec) (verbose : Bool)
    (maxiters : Option ℤ) (abstol reltol feastol : Option ℚ)
    (refinement : Option ℤ) :
    (cvxopt_solve_qp qp st P q G h A b lb ub solver initvals verbose
        maxiters abstol reltol feastol refinement).options_out =
      cvxopt_update_options st verbose maxiters abstol reltol feastol refinement ∧
    (truthyInt maxiters = true →
      (cvxopt_solve_qp qp st P q G h A b lb ub solver initvals verbose
          maxiters abstol reltol feastol refinement).options_out.maxiters = maxiters) := by
  refine ⟨rfl, fun hm => ?_⟩
  rw [cvxopt_solve_qp_options_out, cvxopt_update_options_fields, hm]
  simp

/-- Witness for C4 (amended): instantiating the persistence clause at a
concrete call with `maxiters = 10`. -/
theorem options_applied_without_restore_witness :
    truthyInt (some 10) = true ∧
    (cvxopt_solve_qp (fun _ _ => .ok ⟨"optimal", [0]⟩) options_init
        (.dense [[1]]) [0] none none none none none none none none false
        (some 10) none none none none).options_out.maxiters = some 10 :=
  ⟨by decide,
    (options_applied_without_restore (fun _ _ => .ok ⟨"optimal", [0]⟩) options_init
        (.dense [[1]]) [0] none none none none none none none none false
        (some 10) none none none none).2 (by decide)⟩

/-- C7: every call sets the backend's progress-output toggle to the
caller's `verbose` flag, and at module load the toggle is already `false`,
so diagnostics are suppressed unless the caller opts in. -/
theorem verbose_maps_to_show_progress (qp : QpBackend) (st : CvxoptOptions)
    (P : PyMat) (q : Vec) (G : Option PyMat) (h : Option Vec)
    (A : Option PyMat) (b : Option Vec) (lb ub : Option BVec)
    (solver : Option String) (initvals : Option Vec) (verbose : Bool)
    (maxiters : Option ℤ) (abstol reltol feastol : Option ℚ)
    (refinement : Option ℤ) :
    (cvxopt_solve_qp qp st P q G h A b lb ub solver initvals verbose
        maxiters abstol reltol feastol refinement).options_out.show_progress
      = verbose ∧
    options_init.show_progress = false := by
  refine ⟨?_, rfl⟩
  rw [cvxopt_solve_qp_options_out, cvxopt_update_options_fields]

/-- Counterexample for C6: a call that explicitly passes `refinement = 0`
does not forward that value — the option table keeps no `refinement` entry,
exactly as if the caller had not set it. -/
theorem zero_option_treated_as_unset_cex :
    (cvxopt_solve_qp (fun _ _ => .ok ⟨"optimal", [0]⟩) options_init
        (.dense [[1]]) [0] none none none none none none none none false
        none none none none (some 0)).options_out.refinement ≠ some 0 := by
  decide

/-- C6 (amended): a tuning option is forwarded to the backend's option
table exactly when its value is truthy (present and nonzero), and then the
exact value is forwarded; an unset option — or an explicit zero, which
Python truthiness conflates with unset — forwards nothing and leaves the
table entry as it was. -/
theorem tuning_options_forwarded_iff_truthy (qp : QpBackend) (st : CvxoptOptions)
    (P : PyMat) (q : Vec) (G : Option PyMat) (h : Option Vec)
    (A : Option PyMat) (b : Option Vec) (lb ub : Option BVec)
    (solver : Option String) (initvals : Option Vec) (verbose : Bool)
    (maxiters : Option ℤ) (abstol reltol feastol : Option ℚ)
    (refinement : Option ℤ) :
    (cvxopt_solve_qp qp st P q G h A b lb ub solver initvals verbose
        maxiters abstol reltol feastol refinement).options_out.maxiters
      = (if truthyInt maxiters then maxiters else st.maxiters) ∧
    (cvxopt_solve_qp qp st P q G h A b lb ub solver initvals verbose
        maxiters abstol reltol feastol refinement).options_out.abstol
      = (if truthyRat abstol then abstol else st.abstol) ∧
    (cvxopt_solve_qp qp st P q G h A b lb ub solver initvals verbose
        maxiters abstol reltol feastol refinement).options_out.reltol
      = (if truthyRat reltol then reltol else st.reltol) ∧
    (cvxopt_solve_qp qp st P q G h A b lb ub solver initvals verbose
        maxiters abstol reltol feastol refinement).options_out.feastol
      = (if truthyRat feastol then feastol else st.feastol) ∧
    (cvxopt_solve_qp qp st P q G h A b lb ub solver initvals verbose
        maxiters abstol reltol feastol refinement).options_out.refinement
      = (if truthyInt refinement then refinement else st.refinement) := by
  rw [cvxopt_solve_qp_options_out, cvxopt_update_options_fields]
  exact ⟨rfl, rfl, rfl, rfl, rfl⟩

/-- C2: against a backend run that terminates with solution dictionary
`sol` whose point has the backend-guaranteed length `len(q)`, the call
returns `None` exactly when `sol.status` does not contain "optimal" — an
expected non-optimal termination returns normally instead of raising — and
when the status is optimal it returns the backend's point, a vector of
length `len(q)`. -/
theorem returns_none_iff_nonoptimal (st : CvxoptOptions)
    (P : PyMat) (q : Vec) (G : Option PyMat) (h : Option Vec)
    (A : Option PyMat) (b : Option Vec) (lb ub : Option BVec)
    (solver : Option String) (initvals : Option Vec) (verbose : Bool)
    (maxiters : Option ℤ) (abstol reltol feastol : Option ℚ)
    (refinement : Option ℤ) (sol : CvxoptSol)
    (hx : sol.x.length = q.length) :
    ((cvxopt_solve_qp (fun _ _ => .ok sol) st P q G h A b lb ub solver
        initvals verbose maxiters abstol reltol feastol refinement).result
        = .ok none
      ↔ strContains sol.status "optimal" = false) ∧
    (strContains sol.status "optimal" = true →
      (cvxopt_solve_qp (fun _ _ => .ok sol) st P q G h A b lb ub solver
          initvals verbose maxiters abstol reltol feastol refinement).result
        = .ok (some sol.x) ∧ sol.x.length = q.length) := by
  have hres : (cvxopt_solve_qp (fun _ _ => .ok sol) st P q G h A b lb ub solver
      initvals verbose maxiters abstol reltol feastol refinement).result
      = if strContains sol.status "optimal" then
          (match np_reshape sol.x q.length with
            | .ok v => .ok (some v)
            | .error e => .error e)
        else .ok none := rfl
  by_cases hc : strContains sol.status "optimal" <;>
    simp [hres, hc, np_reshape, hx]

/-- Witness for C2: a concrete optimal run returns the backend's point. -/
theorem returns_none_iff_nonoptimal_witness :
    (([1, 2] : Vec).length = ([0, 0] : Vec).length) ∧
    (cvxopt_solve_qp (fun _ _ => .ok ⟨"optimal", [1, 2]⟩) options_init
        (.dense [[1, 0], [0, 1]]) [0, 0] none none none none none none none
        none false none none none none none).result = .ok (some [1, 2]) :=
  ⟨rfl,
    ((returns_none_iff_nonoptimal options_init (.dense [[1, 0], [0, 1]])
        [0, 0] none none none none none none none none false none none none
        none none ⟨"optimal", [1, 2]⟩ rfl).2 (by decide)).1⟩

/-- Counterexample for C5: a backend exception propagates raw to the caller
instead of becoming a `BackendError` outcome, and an unrecognized status
("unknown") produces exactly the same `None` return as legitimate
infeasibility ("primal infeasible") — the two are indistinguishable. -/
theorem backend_failures_unmapped_cex :
    (cvxopt_solve_qp (fun _ _ => .error "Rank(A) < p or Rank([P; A; G]) < n")
        options_init (.dense [[1]]) [0] none none none none none none none
        none false none none none none none).result
      = .error "Rank(A) < p or Rank([P; A; G]) < n" ∧
    (cvxopt_solve_qp (fun _ _ => .ok ⟨"unknown", [0]⟩) options_init
        (.dense [[1]]) [0] none none none none none none none none false
        none none none none none).result = .ok none ∧
    (cvxopt_solve_qp (fun _ _ => .ok ⟨"primal infeasible", [0]⟩) options_init
        (.dense [[1]]) [0] none none none none none none none none false
        none none none none none).result = .ok none :=
  ⟨rfl, rfl, rfl⟩

/-- C5 (amended): the adapter neither catches nor translates backend
failures: an exception raised by the backend propagates unchanged to the
caller, and every non-optimal status — recognized infeasibility or
unrecognized alike — is collapsed to the same `None` return. -/
theorem backend_failures_propagate_or_collapse (st : CvxoptOptions)
    (P : PyMat) (q : Vec) (G : Option PyMat) (h : Option Vec)
    (A : Option PyMat) (b : Option Vec) (lb ub : Option BVec)
    (solver : Option String) (initvals : Option Vec) (verbose : Bool)
    (maxiters : Option ℤ) (abstol reltol feastol : Option ℚ)
    (refinement : Option ℤ) (e : String) (sol : CvxoptSol)
    (hs : strContains sol.status "optimal" = false) :
    (cvxopt_solve_qp (fun _ _ => .error e) st P q G h A b lb ub solver
        initvals verbose maxiters abstol reltol feastol refinement).result
      = .error e ∧
    (cvxopt_solve_qp (fun _ _ => .ok sol) st P q G h A b lb ub solver
        initvals verbose maxiters abstol reltol feastol refinement).result
      = .ok none := by
  constructor
  · rfl
  · have hres : (cvxopt_solve_qp (fun _ _ => .ok sol) st P q G h A b lb ub
        solver initvals verbose maxiters abstol reltol feastol
        refinement).result
        = if strContains sol.status "optimal" then
            (match np_reshape sol.x q.length with
              | .ok v => .ok (some v)
              | .error er => .error er)
          else .ok none := rfl
    simp [hres, hs]

/-- Witness for C5 (amended): concrete instantiation at an unrecognized
status and a concrete exception message. -/
theorem backend_failures_propagate_or_collapse_witness :
    strContains "unknown" "optimal" = false ∧
    (cvxopt_solve_qp (fun _ _ => .error "boom") options_init (.dense [[1]])
        [0] none none none none none none none none false none none none
        none none).result = .error "boom" :=
  ⟨by decide,
    (backend_failures_propagate_or_collapse options_init (.dense [[1]]) [0]
        none none none none none none none none false none none none none
        none "boom" ⟨"unknown", [0]⟩ (by decide)).1⟩

/-- C10: calling the adapter directly with G but no h and A but no b (and
no box bounds) silently drops the lone pair members: the backend is invoked
with both constraint pairs entirely absent, and the call completes without
raising any error for the incomplete pairs. -/
theorem lone_pair_member_silently_dropped (qp : QpBackend) (st : CvxoptOptions)
    (P : PyMat) (q : Vec) (g a : PyMat)
    (solver : Option String) (initvals : Option Vec) (verbose : Bool)
    (maxiters : Option ℤ) (abstol reltol feastol : Option ℚ)
    (refinement : Option ℤ) :
    (cvxopt_solve_qp qp st P q (some g) none (some a) none none none solver
        initvals verbose maxiters abstol reltol feastol refinement).qp_args.G
      = none ∧
    (cvxopt_solve_qp qp st P q (some g) none (some a) none none none solver
        initvals verbose maxiters abstol reltol feastol refinement).qp_args.h
      = none ∧
    (cvxopt_solve_qp qp st P q (some g) none (some a) none none none solver
        initvals verbose maxiters abstol reltol feastol refinement).qp_args.A
      = none ∧
    (cvxopt_solve_qp qp st P q (some g) none (some a) none none none solver
        initvals verbose maxiters abstol reltol feastol refinement).qp_args.b
      = none ∧
    (cvxopt_solve_qp (fun _ _ => .ok ⟨"unknown", [0]⟩) st P q (some g) none
        (some a) none none none solver initvals verbose maxiters abstol
        reltol feastol refinement).result = .ok none := by
  cases initvals <;> exact ⟨rfl, rfl, rfl, rfl, rfl⟩

/-- Specification view of the lower-bound rows, in variable-index order: a
finite component `v` at index `i` yields the row `-e i` with right-hand
side `-v`; an infinite component yields no row. -/
def finiteLowerRows (n : Nat) (l : BVec) : List (Vec × ℚ) :=
  l.enum.filterMap fun p => p.2.map fun v => ((basisRow n p.1).map fun x => -x, -v)

/-- Specification view of the upper-bound rows, in variable-index order: a
finite component `v` at index `i` yields the row `e i` with right-hand side
`v`; an infinite component yields no row. -/
def finiteUpperRows (n : Nat) (u : BVec) : List (Vec × ℚ) :=
  u.enum.filterMap fun p => p.2.map fun v => (basisRow n p.1, v)

/-- The indexed recursion over a bound vector enumerates it. -/
theorem boxRows_eq_enumFrom (n : Nat) (s : ℚ) (l : BVec) (i : Nat) :
    boxRows n s i l = (List.enumFrom i l).filterMap fun p =>
      p.2.map fun v => ((basisRow n p.1).map fun x => s * x, s * v) := by
  induction l generalizing i with
  | nil => rfl
  | cons hd tl ih =>
    cases hd <;> simp [boxRows, List.enumFrom, ih]

/-- With sign `-1` the indexed recursion produces the lower-bound rows. -/
theorem boxRows_lower (n : Nat) (l : BVec) :
    boxRows n (-1) 0 l = finiteLowerRows n l := by
  rw [boxRows_eq_enumFrom]
  simp only [neg_one_mul]
  rfl

/-- With sign `1` the indexed recursion produces the upper-bound rows. -/
theorem boxRows_upper (n : Nat) (u : BVec) :
    boxRows n 1 0 u = finiteUpperRows n u := by
  rw [boxRows_eq_enumFrom]
  simp only [one_mul, List.map_id']
  rfl

/-- The spec's own canonicalization test, evaluated: with no prior G/h,
`lb = [-1, None]` and `ub = [None, 2]` produce exactly the rows
`[-1, 0]` with right-hand side `1` and `[0, 1]` with right-hand side `2`. -/
theorem linear_from_box_spec_example :
    linear_from_box_inequalities none none
        (some [some (-1), none]) (some [none, some 2])
      = (some (.dense [[-1, 0], [0, 1]]), some [1, 2]) := by
  have h2 : List.range 2 = [0, 1] := rfl
  simp [linear_from_box_inequalities, boxRows, basisRow, h2]

/-- C3: box bounds are canonicalized into inequality rows — each finite
`lb i` contributes the row `-e i` with right-hand side `-lb i`, each finite
`ub i` contributes the row `e i` with right-hand side `ub i`, infinite
components contribute no row, and the stacking order is the original G rows
first, then lower-bound rows in variable-index order, then upper-bound rows
in variable-index order.  When G and h are absent the generated rows stand
alone, and with no finite bound at all the result stays `(none, none)`; on
the spec's own test, `lb = [-1, None]` and `ub = [None, 2]` with no prior
G/h yield exactly the two rows `-x0 ≤ 1` and `x1 ≤ 2`, lower first.  The
adapter hands the backend exactly these canonicalized matrices, both with
and without a prior G/h. -/
theorem box_bounds_become_inequality_rows (g : PyMat) (hv : Vec) (l u : BVec)
    (qp : QpBackend) (st : CvxoptOptions) (P : PyMat) (q : Vec)
    (A : Option PyMat) (b : Option Vec) (solver : Option String)
    (initvals : Option Vec) (verbose : Bool) (maxiters : Option ℤ)
    (abstol reltol feastol : Option ℚ) (refinement : Option ℤ) :
    linear_from_box_inequalities (some g) (some hv) (some l) (some u)
      = (some (.dense (g.entries ++
            (finiteLowerRows l.length l ++ finiteUpperRows l.length u).map Prod.fst)),
         some (hv ++
            (finiteLowerRows l.length l ++ finiteUpperRows l.length u).map Prod.snd)) ∧
    linear_from_box_inequalities (some g) (some hv) (some l) none
      = (some (.dense (g.entries ++ (finiteLowerRows l.length l).map Prod.fst)),
         some (hv ++ (finiteLowerRows l.length l).map Prod.snd)) ∧
    linear_from_box_inequalities (some g) (some hv) none (some u)
      = (some (.dense (g.entries ++ (finiteUpperRows u.length u).map Prod.fst)),
         some (hv ++ (finiteUpperRows u.length u).map Prod.snd)) ∧
    linear_from_box_inequalities none none (some l) (some u)
      = (if finiteLowerRows l.length l ++ finiteUpperRows l.length u = []
         then (none, none)
         else (some (.dense
                ((finiteLowerRows l.length l ++ finiteUpperRows l.length u).map Prod.fst)),
               some ((finiteLowerRows l.length l ++ finiteUpperRows l.length u).map Prod.snd))) ∧
    linear_from_box_inequalities none none (some l) none
      = (if finiteLowerRows l.length l = []
         then (none, none)
         else (some (.dense ((finiteLowerRows l.length l).map Prod.fst)),
               some ((finiteLowerRows l.length l).map Prod.snd))) ∧
    linear_from_box_inequalities none none none (some u)
      = (if finiteUpperRows u.length u = []
         then (none, none)
         else (some (.dense ((finiteUpperRows u.length u).map Prod.fst)),
               some ((finiteUpperRows u.length u).map Prod.snd))) ∧
    linear_from_box_inequalities none none
        (some [some (-1), none]) (some [none, some 2])
      = (some (.dense [[-1, 0], [0, 1]]), some [1, 2]) ∧
    (cvxopt_solve_qp qp st P q (some g) (some hv) A b (some l) (some u)
        solver initvals verbose maxiters abstol reltol feastol
        refinement).qp_args.G
      = (linear_from_box_inequalities (some g) (some hv) (some l)
          (some u)).1.map to_cvxopt ∧
    (cvxopt_solve_qp qp st P q (some g) (some hv) A b (some l) (some u)
        solver initvals verbose maxiters abstol reltol feastol
        refinement).qp_args.h
      = (linear_from_box_inequalities (some g) (some hv) (some l)
          (some u)).2.map vec_to_cvxopt ∧
    (cvxopt_solve_qp qp st P q none none A b
        (some [some (-1), none]) (some [none, some 2])
        solver initvals verbose maxiters abstol reltol feastol
        refinement).qp_args.G
      = some (to_cvxopt (.dense [[-1, 0], [0, 1]])) ∧
    (cvxopt_solve_qp qp st P q none none A b
        (some [some (-1), none]) (some [none, some 2])
        solver initvals verbose maxiters abstol reltol feastol
        refinement).qp_args.h
      = some (vec_to_cvxopt [1, 2]) := by
  refine ⟨?_, ?_, ?_, ?_, ?_, ?_, ?_, ?_, ?_, ?_, ?_⟩
  · simp [linear_from_box_inequalities, boxRows_lower, boxRows_upper]
  · simp [linear_from_box_inequalities, boxRows_lower]
  · simp [linear_from_box_inequalities, boxRows_upper]
  · by_cases hL : finiteLowerRows l.length l ++ finiteUpperRows l.length u = [] <;>
      simp [linear_from_box_inequalities, boxRows_lower, boxRows_upper, hL]
  · by_cases hL : finiteLowerRows l.length l = [] <;>
      simp [linear_from_box_inequalities, boxRows_lower, hL]
  · by_cases hL : finiteUpperRows u.length u = [] <;>
      simp [linear_from_box_inequalities, boxRows_upper, hL]
  · exact linear_from_box_spec_example
  · cases A <;> cases b <;> cases initvals <;> rfl
  · cases A <;> cases b <;> cases initvals <;> rfl
  · cases A <;> cases b <;> cases initvals <;>
      simp [cvxopt_solve_qp, linear_from_box_spec_example, to_cvxopt]
  · cases A <;> cases b <;> cases initvals <;>
      simp [cvxopt_solve_qp, linear_from_box_spec_example, vec_to_cvxopt]

/-- An array object in process memory, reduced to its numeric contents. -/
abbrev Cell : Type := List (List ℚ)

/-- The process heap of array objects; a reference is an index into it.
Allocation appends; the model makes every write an allocation of a fresh
object, which is exactly what the adapter's conversions do. -/
structure Heap : Type where
  cells : List Cell
deriving Repr

/-- Allocate a fresh array object, returning the grown heap and the new
reference. -/
def halloc (hp : Heap) (c : Cell) : Heap × Nat :=
  (⟨hp.cells ++ [c]⟩, hp.cells.length)

/-- Read the contents of an array object. -/
def hread (hp : Heap) (r : Nat) : Cell :=
  (hp.cells.get? r).getD []

/-- A one-dimensional ndarray laid out as a column cell. -/
def vecCell (v : Vec) : Cell :=
  v.map fun x => [x]

/-- Column contents of a cell holding a one-dimensional array. -/
def cellToVec (c : Cell) : Vec :=
  c.filterMap List.head?

/-- Bound-vector contents of a cell holding a one-dimensional array (the
heap model takes every stored bound component as finite). -/
def cellToBVec (c : Cell) : BVec :=
  c.map List.head?

/-- Heap-level `to_cvxopt`: `cvxopt.matrix` / `cvxopt.spmatrix` construction
reads the argument and materializes a fresh converted copy; the original
object is untouched. -/
def to_cvxopt_h (hp : Heap) (r : Nat) : Heap × Nat :=
  halloc hp (hread hp r)

/-- Heap-level box-bound canonicalization: reads the G, h, lb, ub objects,
computes the stacked matrices with `linear_from_box_inequalities`, and
allocates fresh objects for the results; inputs are untouched. -/
def linear_from_box_inequalities_h (hp : Heap) (G h lb ub : Option Nat) :
    Heap × Option Nat × Option Nat :=
  match linear_from_box_inequalities
      (G.map fun r => PyMat.dense (hread hp r))
      (h.map fun r => cellToVec (hread hp r))
      (lb.map fun r => cellToBVec (hread hp r))
      (ub.map fun r => cellToBVec (hread hp r)) with
  | (some G2, some h2) =>
      let a1 := halloc hp G2.entries
      let a2 := halloc a1.1 (vecCell h2)
      (a2.1, some a1.2, some a2.2)
  | _ => (hp, none, none)

/-- Heap-level `cvxopt_solve_qp`: the same statement sequence as the pure
model, with every array argument passed by reference and every conversion
materializing a fresh object.  The backend outcome is the parameter `qpr`;
on an optimal status the adapter allocates the fresh ndarray produced by
`array(sol.x).reshape(...)` and returns a reference to it. -/
def cvxopt_solve_qp_h (qpr : Except String CvxoptSol) (st : CvxoptOptions)
    (hp : Heap) (P q : Nat) (G h A b lb ub : Option Nat)
    (initvals : Option Nat) (verbose : Bool)
    (maxiters : Option ℤ) (abstol reltol feastol : Option ℚ)
    (refinement : Option ℤ) : Heap × CvxoptOptions × Except String (Option Nat) :=
  let c0 := if lb.isSome || ub.isSome
    then linear_from_box_inequalities_h hp G h lb ub
    else (hp, G, h)
  let hp1 := c0.1
  let Gc := c0.2.1
  let hc := c0.2.2
  let st6 := cvxopt_update_options st verbose maxiters abstol reltol feastol refinement
  let hp2 := (to_cvxopt_h (to_cvxopt_h hp1 P).1 q).1
  let hp3 := match Gc, hc with
    | some gr, some hr => (to_cvxopt_h (to_cvxopt_h hp2 gr).1 hr).1
    | _, _ => hp2
  let hp4 := match A, b with
    | some ar, some br => (to_cvxopt_h (to_cvxopt_h hp3 ar).1 br).1
    | _, _ => hp3
  let hp5 := match initvals with
    | some ir => (to_cvxopt_h hp4 ir).1
    | none => hp4
  match qpr with
  | .error e => (hp5, st6, .error e)
  | .ok sol =>
      if strContains sol.status "optimal" then
        if sol.x.length = (hread hp q).length then
          let ax := halloc hp5 (vecCell sol.x)
          (ax.1, st6, .ok (some ax.2))
        else (hp5, st6, .error "cannot reshape array")
      else (hp5, st6, .ok none)

/-- Heap extension: the second heap is the first plus freshly allocated
objects. -/
def heapLe (h1 h2 : Heap) : Prop :=
  ∃ L, h2.cells = h1.cells ++ L

theorem heapLe_refl (hp : Heap) : heapLe hp hp :=
  ⟨[], by simp⟩

theorem heapLe_halloc_of {h1 h2 : Heap} (hle : heapLe h1 h2) (c : Cell) :
    heapLe h1 (halloc h2 c).1 := by
  obtain ⟨L, hL⟩ := hle
  exact ⟨L ++ [c], by simp [halloc, hL]⟩

theorem heapLe_to_cvxopt_of {h1 h2 : Heap} (hle : heapLe h1 h2) (r : Nat) :
    heapLe h1 (to_cvxopt_h h2 r).1 :=
  heapLe_halloc_of hle _

theorem heapLe_box_of {h1 h2 : Heap} (hle : heapLe h1 h2)
    (G h lb ub : Option Nat) :
    heapLe h1 (linear_from_box_inequalities_h h2 G h lb ub).1 := by
  unfold linear_from_box_inequalities_h
  split
  · exact heapLe_halloc_of (heapLe_halloc_of hle _) _
  · exact hle

/-- Indexing below the original length is unaffected by appending. -/
theorem get?_append_left {α : Type} (l1 l2 : List α) (r : Nat)
    (hr : r < l1.length) : (l1 ++ l2).get? r = l1.get? r := by
  induction l1 generalizing r with
  | nil => exact absurd hr (by simp)
  | cons hd tl ih =>
    cases r with
    | zero => rfl
    | succ m => exact ih m (Nat.lt_of_succ_lt_succ hr)

/-- Reads of pre-existing objects are unaffected by heap extension. -/
theorem heapLe_get? {h1 h2 : Heap} (hle : heapLe h1 h2) (r : Nat)
    (hr : r < h1.cells.length) : h2.cells.get? r = h1.cells.get? r := by
  obtain ⟨L, hL⟩ := hle
  rw [hL]
  exact get?_append_left h1.cells L r hr

/-- The heap after a full adapter call extends the heap before it. -/
theorem cvxopt_solve_qp_h_extends (qpr : Except String CvxoptSol)
    (st : CvxoptOptions) (hp : Heap) (P q : Nat) (G h A b lb ub : Option Nat)
    (initvals : Option Nat) (verbose : Bool) (maxiters : Option ℤ)
    (abstol reltol feastol : Option ℚ) (refinement : Option ℤ) :
    heapLe hp (cvxopt_solve_qp_h qpr st hp P q G h A b lb ub initvals
        verbose maxiters abstol reltol feastol refinement).1 := by
  unfold cvxopt_solve_qp_h
  repeat'
    first
    | exact heapLe_refl _
    | apply heapLe_halloc_of
    | apply heapLe_to_cvxopt_of
    | apply heapLe_box_of
    | split
    | simp only []

/-- C8: the caller-owned array objects are never mutated by a solve call:
every pre-existing heap object reads back unchanged after the call — all
conversions and the canonicalization allocate fresh transient copies, and
no statement of the adapter writes into an existing object. -/
theorem caller_arrays_not_mutated (qpr : Except String CvxoptSol)
    (st : CvxoptOptions) (hp : Heap) (P q : Nat) (G h A b lb ub : Option Nat)
    (initvals : Option Nat) (verbose : Bool) (maxiters : Option ℤ)
    (abstol reltol feastol : Option ℚ) (refinement : Option ℤ)
    (r : Nat) (hr : r < hp.cells.length) :
    ((cvxopt_solve_qp_h qpr st hp P q G h A b lb ub initvals verbose
        maxiters abstol reltol feastol refinement).1).cells.get? r
      = hp.cells.get? r :=
  heapLe_get?
    (cvxopt_solve_qp_h_extends qpr st hp P q G h A b lb ub initvals verbose
      maxiters abstol reltol feastol refinement) r hr

/-- Witness for C8: a concrete call — with G, h, a box bound, warm start
and an optimal backend outcome, so that every conversion runs — leaves the
caller's P matrix (and every other pre-existing object) intact. -/
theorem caller_arrays_not_mutated_witness :
    0 < (Heap.mk [[[1, 0], [0, 1]], [[0], [0]], [[1, -1]], [[2]], [[-1], [-1]]]).cells.length ∧
    ((cvxopt_solve_qp_h (.ok ⟨"optimal", [1, 2]⟩) options_init
        (Heap.mk [[[1, 0], [0, 1]], [[0], [0]], [[1, -1]], [[2]], [[-1], [-1]]])
        0 1 (some 2) (some 3) none none (some 4) none (some 1) true
        (some 50) none none none none).1).cells.get? 0
      = (Heap.mk [[[1, 0], [0, 1]], [[0], [0]], [[1, -1]], [[2]], [[-1], [-1]]]).cells.get? 0 :=
  ⟨by decide,
    caller_arrays_not_mutated (.ok ⟨"optimal", [1, 2]⟩) options_init
      (Heap.mk [[[1, 0], [0, 1]], [[0], [0]], [[1, -1]], [[2]], [[-1], [-1]]])
      0 1 (some 2) (some 3) none none (some 4) none (some 1) true
      (some 50) none none none none 0 (by decide)⟩
